import Mathlib

/-!
Shallow embedding of `src/app.py` (a Flask backend that builds lesson-plan
prompts, calls a generative-text service, and parses its JSON responses).

Python runtime values reachable in this program (JSON-decodable values plus
`None`) are modelled by `PyVal`; raised Python exceptions are modelled by
`Except PyErr`.  The external generative call `model.generate_content`
(together with reading `.text` from its response) is modelled as a parameter
`genFn : String → Except PyErr String`.  `json.loads` is modelled by an
executable JSON decoder `loads`; Python `str.strip` by `pyStrip`
(whitespace trimming); Python truthiness by `pyTruthy`.
-/

/-- A Python value as it can appear in this program: `None`, booleans,
numbers, strings, lists and string-keyed dicts.  A JSON number is kept as a
decimal mantissa/exponent pair (value `m · 10^e`); no claim compares numbers
across representations. -/
inductive PyVal where
  | none : PyVal
  | bool : Bool → PyVal
  | num  : Int → Int → PyVal
  | str  : String → PyVal
  | list : List PyVal → PyVal
  | dict : List (String × PyVal) → PyVal

/-- A raised Python exception: its class name and message. -/
structure PyErr where
  kind : String
  msg  : String

/-- The left brace character (written by code point to keep string literals
free of brace characters). -/
def lbrace : Char := Char.ofNat 123

/-- The right brace character. -/
def rbrace : Char := Char.ofNat 125

/-- JSON whitespace (also what `str.strip` removes in the inputs this
program sees): space, tab, newline, carriage return. -/
def isJsonWs (c : Char) : Bool :=
  c = ' ' || c = '\t' || c = '\n' || c = '\r'

/-- Drop leading JSON whitespace from a character list. -/
def skipWs : List Char → List Char
  | [] => []
  | c :: cs => if isJsonWs c then skipWs cs else c :: cs

/-- Whether a character is a hexadecimal digit. -/
def isHexChar (c : Char) : Bool :=
  c.isDigit || ('a' ≤ c && c ≤ 'f') || ('A' ≤ c && c ≤ 'F')

/-- Decode one JSON string body (the part after the opening quote),
accumulating characters until the closing quote; supports the JSON escape
sequences.  Raw control characters are rejected, as `json.loads` does in
strict mode. -/
def parseStringBody : List Char → List Char → Option (String × List Char)
  | [], _ => Option.none
  | c :: cs, acc =>
    if c = '"' then some (String.mk acc.reverse, cs)
    else if c = '\\' then
      match cs with
      | [] => Option.none
      | e :: cs' =>
        if e = '"' then parseStringBody cs' ('"' :: acc)
        else if e = '\\' then parseStringBody cs' ('\\' :: acc)
        else if e = '/' then parseStringBody cs' ('/' :: acc)
        else if e = 'n' then parseStringBody cs' ('\n' :: acc)
        else if e = 't' then parseStringBody cs' ('\t' :: acc)
        else if e = 'r' then parseStringBody cs' ('\r' :: acc)
        else if e = 'b' then parseStringBody cs' ('\x08' :: acc)
        else if e = 'f' then parseStringBody cs' ('\x0c' :: acc)
        else if e = 'u' then
          match cs' with
          | h1 :: h2 :: h3 :: h4 :: cs'' =>
            if isHexChar h1 && isHexChar h2 && isHexChar h3 && isHexChar h4 then
              let hv (h : Char) : Nat :=
                if h.isDigit then h.toNat - '0'.toNat
                else if 'a' ≤ h ∧ h ≤ 'f' then h.toNat - 'a'.toNat + 10
                else h.toNat - 'A'.toNat + 10
              parseStringBody cs''
                (Char.ofNat (((hv h1 * 16 + hv h2) * 16 + hv h3) * 16 + hv h4) :: acc)
            else Option.none
          | _ => Option.none
        else Option.none
    else if c.toNat < 32 then Option.none
    else parseStringBody cs (c :: acc)

/-- Split off a maximal run of decimal digits. -/
def spanDigits : List Char → (List Char × List Char)
  | [] => ([], [])
  | c :: cs =>
    if c.isDigit then
      let (ds, rest) := spanDigits cs
      (c :: ds, rest)
    else ([], c :: cs)

/-- The natural number denoted by a digit run. -/
def digitsToNat (ds : List Char) : Nat :=
  ds.foldl (fun acc c => acc * 10 + (c.toNat - '0'.toNat)) 0

/-- Decode the optional exponent part of a JSON number and assemble the
mantissa/exponent value. -/
def parseNumberExp (neg : Bool) (intDs fracDs : List Char) (cs : List Char) :
    Option (PyVal × List Char) :=
  let mant : Int := Int.ofNat (digitsToNat (intDs ++ fracDs))
  let mant : Int := if neg then -mant else mant
  let e₀ : Int := -(Int.ofNat fracDs.length)
  match cs with
  | c :: rest =>
    if c = 'e' ∨ c = 'E' then
      let (esign, rest₁) :=
        match rest with
        | '+' :: r => ((1 : Int), r)
        | '-' :: r => ((-1 : Int), r)
        | _ => ((1 : Int), rest)
      let (eDs, rest₂) := spanDigits rest₁
      if eDs.isEmpty then Option.none
      else some (PyVal.num mant (e₀ + esign * Int.ofNat (digitsToNat eDs)), rest₂)
    else some (PyVal.num mant e₀, c :: rest)
  | [] => some (PyVal.num mant e₀, [])

/-- Decode a JSON number starting at the given characters (which begin with
a digit or a minus sign), as mantissa/exponent.  Follows JSON grammar: an
optional minus, an integer part, an optional fraction, an optional
exponent. -/
def parseNumber (cs : List Char) : Option (PyVal × List Char) :=
  let (neg, cs₁) :=
    match cs with
    | '-' :: rest => (true, rest)
    | _ => (false, cs)
  let (intDs, cs₂) := spanDigits cs₁
  if intDs.isEmpty then Option.none
  else
    let (fracDs, cs₃) :=
      match cs₂ with
      | '.' :: rest =>
        let (ds, r) := spanDigits rest
        (ds, if ds.isEmpty then '.' :: rest else r)
      | _ => ([], cs₂)
    match cs₂ with
    | '.' :: rest =>
      if (spanDigits rest).1.isEmpty then Option.none
      else
        parseNumberExp neg intDs fracDs cs₃
    | _ => parseNumberExp neg intDs fracDs cs₃

/-- Insert a key/value pair into an ordered association list with Python
dict semantics: an existing key keeps its position and gets the new value,
a new key is appended. -/
def insertKey (k : String) (v : PyVal) : List (String × PyVal) → List (String × PyVal)
  | [] => [(k, v)]
  | (k', v') :: rest =>
    if k' = k then (k', v) :: rest else (k', v') :: insertKey k v rest

mutual

/-- Decode one JSON value from the characters (leading whitespace already
skipped), fuel-bounded. -/
def parseValue : Nat → List Char → Option (PyVal × List Char)
  | 0, _ => Option.none
  | Nat.succ fuel, cs =>
    match cs with
    | [] => Option.none
    | c :: rest =>
      if c = '"' then
        match parseStringBody rest [] with
        | some (s, r) => some (PyVal.str s, r)
        | Option.none => Option.none
      else if c = lbrace then parseObject fuel (skipWs rest) []
      else if c = '[' then parseArray fuel (skipWs rest) []
      else if c = 't' then
        match rest with
        | 'r' :: 'u' :: 'e' :: r => some (PyVal.bool true, r)
        | _ => Option.none
      else if c = 'f' then
        match rest with
        | 'a' :: 'l' :: 's' :: 'e' :: r => some (PyVal.bool false, r)
        | _ => Option.none
      else if c = 'n' then
        match rest with
        | 'u' :: 'l' :: 'l' :: r => some (PyVal.none, r)
        | _ => Option.none
      else if c = '-' ∨ c.isDigit then parseNumber (c :: rest)
      else Option.none
termination_by structural fuel _ => fuel

/-- Decode the members of a JSON object (the opening brace and leading
whitespace already consumed). -/
def parseObject : Nat → List Char → List (String × PyVal) →
    Option (PyVal × List Char)
  | 0, _, _ => Option.none
  | Nat.succ fuel, cs, acc =>
    match cs with
    | [] => Option.none
    | c :: rest =>
      if c = rbrace then
        if acc.isEmpty then some (PyVal.dict acc, rest) else Option.none
      else if c = '"' then
        match parseStringBody rest [] with
        | Option.none => Option.none
        | some (k, r₁) =>
          match skipWs r₁ with
          | ':' :: r₂ =>
            match parseValue fuel (skipWs r₂) with
            | Option.none => Option.none
            | some (v, r₃) =>
              match skipWs r₃ with
              | ',' :: r₄ =>
                match skipWs r₄ with
                | '"' :: r₅ => parseObject fuel ('"' :: r₅) (insertKey k v acc)
                | _ => Option.none
              | c' :: r₄ =>
                if c' = rbrace then some (PyVal.dict (insertKey k v acc), r₄)
                else Option.none
              | [] => Option.none
          | _ => Option.none
      else Option.none
termination_by structural fuel _ _ => fuel

/-- Decode the elements of a JSON array (the opening bracket and leading
whitespace already consumed). -/
def parseArray : Nat → List Char → List PyVal → Option (PyVal × List Char)
  | 0, _, _ => Option.none
  | Nat.succ fuel, cs, acc =>
    match cs with
    | [] => Option.none
    | c :: rest =>
      if c = ']' then
        if acc.isEmpty then some (PyVal.list acc.reverse, rest) else Option.none
      else
        match parseValue fuel (c :: rest) with
        | Option.none => Option.none
        | some (v, r₁) =>
          match skipWs r₁ with
          | ',' :: r₂ => parseArray fuel (skipWs r₂) (v :: acc)
          | c' :: r₂ =>
            if c' = ']' then some (PyVal.list (v :: acc).reverse, r₂)
            else Option.none
          | [] => Option.none
termination_by structural fuel _ _ => fuel

end

/-- Model of Python `json.loads`: decode the whole string as one JSON value
(surrounding whitespace allowed), `Option.none` on decode failure.  The fuel
`4 * length + 4` bounds the recursion and always suffices: every recursive
step consumes input or descends into a strictly smaller remainder. -/
def loads (s : String) : Option PyVal :=
  match parseValue (4 * s.length + 4) (skipWs s.toList) with
  | some (v, rest) => if (skipWs rest).isEmpty then some v else Option.none
  | Option.none => Option.none
/-- The fixed prompt template text before the interpolated topic. -/
def promptPre : String :=
  "\n    You are an expert curriculum designer for a Grade 10 TLE (Cookery) teacher at St. Mary\x27s Academy, a private Catholic school.\n    Your task is to generate 14 lesson plan components based on the user\x27s provided Topic, Knowledge, and Skill.\n    \n    PROVIDED BY USER:\n    Topic: \""

/-- The fixed prompt template text between topic and knowledge. -/
def promptMid1 : String :=
  "\"\n    Knowledge (PoC): \""

/-- The fixed prompt template text between knowledge and skill. -/
def promptMid2 : String :=
  "\"\n    Skill (PoC): \""

/-- The fixed prompt template text after the interpolated skill (the 14-key schema instructions). -/
def promptPost : String :=
  "\"\n\n    IMPORTANT: Your response MUST be a single, valid JSON object. Do not add any text or formatting before or after the JSON.\n    You can use newlines (\\n) inside the JSON values (like for vocabulary).\n\n    Please fill in the values for the following 14 keys, following the instructions for each key:\n    \x7b\n      \"rvw\": \"(Review: One short \x27How...\x27 question that recalls the previous lesson topic based from the previous day topic.)\",\n      \"fcs\": \"(Focus: One concise or very extremely brief words that states the primary learning topic of this lesson.)\",\n      \"vcb\": \"(Vocabularies: Five bulleted technical or unfamiliar terms (each begins with \x27• \x27) with one-line student-friendly definitions. Each bulleted word must be on its own line, e.g., \x27• Term 1: ...\\n• Term 2: ...\x27)\",\n      \"mtv\": \"(Motivation: A short attention-getting opener (title then 1-2 sentence description) that connects to students\x27 experience. Example: \x27Poultry Hunt – Students look at pictures of different poultry types...\x27)\",\n      \"apk\": \"(Activating Prior Knowledge: One \x27How...\x27 question that connects students\x27 prior learning/experience to the present topic (not about the main topic itself).)\",\n      \"activities\": \"(Activities: A classroom-based activity. Format: \x27<b>Activities:</b> (Creative Title)\\nDirection: (Brief steps, resources, grouping, time cue, and expected product)\x27)\",\n      \"boc\": \"(Broadening of concepts: Exactly one \x27How...\x27 question that connects the lesson to wider contexts or applications, like their lives.)\",\n      \n      \"values\": \"(Core/Related Values: Choose one core value (Faith / Excellence / Service) and one related value. Write this line exactly: <b>Core/Related Values:</b> <u>[Core] / [Related]</u> then immediately write one reflective question in this exact style: How does [related value] demonstrate [core value] in the context of [topic]? (Reference list: 1. Faith: Strong faith in God; Prophetic witness to Gospel values; Nationalism; Justice; Communion. 2. Excellence: Integrity; Competence; Resourcefulness; Discipline; Self-reliance. 3. Service: Stewardship; Humility; Charity; Courage; Preferential love for the poor))\",\n      \n      \"social\": \"(Social Orientation: Start with the social issue title (e.g., Food Waste Reduction, Public Health) as: <b>Social Orientation:</b> <u>[Issue]</u> then write one focused reflective question: How can learning [topic] contribute to [social issue outcome] in the community?)\",\n      \"discipline\": \"(Lesson Across Discipline: Present two subjects first (format: <b>Lesson Across Discipline:</b> <u>[Subject 1] and [Subject 2]</u>) and write the linking question: How do [Subject 1] principles in [topic] align with [Subject 2] skills and topic in this lesson?)\",\n      \"biblical\": \"(Biblical Integration: Start the line exactly with <b>Biblical Integration:</b> followed by the full Bible verse (book name, chapter, verse). Use this format: <b>Biblical Integration:</b> <u>Bible Verse - \"The content of the bible verse\"</u>)\",\n      \"eva\": \"(Evaluation: A short, pen-and-paper practical assessment task (e.g., Short quiz, essay, identification, classification) that measures the Knowledge.)\",\n      \"smr_act\": \"(Summary and Action: A single brief \x27How...\x27 question that summarizes the main point, AND a second \x27How...\x27 question asking students how they will apply the learning in daily life.)\",\n      \"pua\": \"(Purposive Assignment: A unique, non-repetitive take-home task that can be done at home. Describe expected output, length, medium, and due date placeholder.)\"\n    \x7d\n    "


/-- The whitespace Python `str.strip()` removes (ASCII): space, tab,
newline, carriage return, vertical tab, form feed. -/
def isPyWs (c : Char) : Bool :=
  c = ' ' || c = '\t' || c = '\n' || c = '\r' || c = '\x0b' || c = '\x0c'

/-- Remove leading and trailing Python whitespace from a character list. -/
def trimChars (l : List Char) : List Char :=
  ((l.dropWhile isPyWs).reverse.dropWhile isPyWs).reverse

/-- Model of Python `str.strip()`: remove leading and trailing whitespace. -/
def pyStrip (s : String) : String := String.mk (trimChars s.data)

/-- Whether the first list is a prefix of the second. -/
def isPrefixChars : List Char → List Char → Bool
  | [], _ => true
  | _ :: _, [] => false
  | p :: ps, c :: cs => (p = c) && isPrefixChars ps cs

/-- Whether the first list is a suffix of the second. -/
def isSuffixChars (suf l : List Char) : Bool :=
  isPrefixChars suf.reverse l.reverse

/-- The code-fence removal at the top of `parse_ai_response` in
`src/app.py`: if the stripped text starts with the seven characters of the
markdown JSON fence opener, the text becomes the stripped text with those
seven characters dropped (Python `text.strip()[7:]`); then, if the stripped
text ends with three backticks, the text becomes the stripped text with the
last three characters dropped (Python `text.strip()[:-3]`). -/
def stripFence (text : String) : String :=
  let t₁ : List Char :=
    if isPrefixChars "```json".data (trimChars text.data) then
      (trimChars text.data).drop 7
    else text.data
  let st₁ := trimChars t₁
  if isSuffixChars "```".data st₁ then String.mk (st₁.take (st₁.length - 3))
  else String.mk t₁

/-- Model of Python truthiness (`bool(x)`) on the values of this program:
`None`, `False`, zero, the empty string, the empty list and the empty dict
are falsy; everything else is truthy. -/
def pyTruthy : PyVal → Bool
  | PyVal.none => false
  | PyVal.bool b => b
  | PyVal.num m _ => m != 0
  | PyVal.str s => s != ""
  | PyVal.list l => !l.isEmpty
  | PyVal.dict d => !d.isEmpty

/-- The Python type name of a value (used in exception messages). -/
def pyTypeName : PyVal → String
  | PyVal.none => "NoneType"
  | PyVal.bool _ => "bool"
  | PyVal.num _ e => if e = 0 then "int" else "float"
  | PyVal.str _ => "str"
  | PyVal.list _ => "list"
  | PyVal.dict _ => "dict"

mutual

/-- Model of Python `repr` on the values of this program (strings are
quoted; containers list the reprs of their members).  The exact float
rendering is immaterial to every claim. -/
def pyRepr : PyVal → String
  | PyVal.none => "None"
  | PyVal.bool true => "True"
  | PyVal.bool false => "False"
  | PyVal.num m e => if e = 0 then toString m else toString m ++ "e" ++ toString e
  | PyVal.str s => "\x27" ++ s ++ "\x27"
  | PyVal.list l => "[" ++ pyReprElems l ++ "]"
  | PyVal.dict d => "\x7b" ++ pyReprPairs d ++ "\x7d"

/-- Comma-separated reprs of list elements. -/
def pyReprElems : List PyVal → String
  | [] => ""
  | [v] => pyRepr v
  | v :: rest => pyRepr v ++ ", " ++ pyReprElems rest

/-- Comma-separated reprs of dict entries. -/
def pyReprPairs : List (String × PyVal) → String
  | [] => ""
  | [(k, v)] => "\x27" ++ k ++ "\x27: " ++ pyRepr v
  | (k, v) :: rest => "\x27" ++ k ++ "\x27: " ++ pyRepr v ++ ", " ++ pyReprPairs rest

end

/-- Model of Python `str(x)` (f-string interpolation): a string is itself,
any other value is its repr. -/
def pyStr : PyVal → String
  | PyVal.str s => s
  | v => pyRepr v

/-- Look up a key in an ordered association list (Python dict lookup). -/
def dictGet (kvs : List (String × PyVal)) (k : String) : Option PyVal :=
  (kvs.find? (fun p => p.1 == k)).map (fun p => p.2)

/-- Model of Python `x.get(key, default)`: on a dict, the stored value or
the default; on any non-dict value it raises `AttributeError`, since only
dicts have a `get` method among the values this program handles. -/
def pyGetD (v : PyVal) (k : String) (dflt : PyVal) : Except PyErr PyVal :=
  match v with
  | PyVal.dict kvs => Except.ok ((dictGet kvs k).getD dflt)
  | other =>
    Except.error ⟨"AttributeError",
      "\x27" ++ pyTypeName other ++ "\x27 object has no attribute \x27get\x27"⟩

/-- Model of Python `x.get(key)` (default `None`). -/
def pyGet (v : PyVal) (k : String) : Except PyErr PyVal :=
  pyGetD v k PyVal.none

/-- Model of Python iteration `for x in v`: lists yield their elements,
strings their one-character substrings, dicts their keys; any other value
raises `TypeError`. -/
def pyIter : PyVal → Except PyErr (List PyVal)
  | PyVal.list l => Except.ok l
  | PyVal.str s => Except.ok (s.toList.map (fun c => PyVal.str (String.mk [c])))
  | PyVal.dict kvs => Except.ok (kvs.map (fun p => PyVal.str p.1))
  | other =>
    Except.error ⟨"TypeError",
      "\x27" ++ pyTypeName other ++ "\x27 object is not iterable"⟩

/-- `create_lesson_prompt(topic, knowledge, skill)` from `src/app.py`: the
f-string template with the three inputs interpolated at their designated
positions.  (The caller interpolates `str()` of its values; `pyStr` is
applied at the call site in `processDay`.) -/
def create_lesson_prompt (topic knowledge skill : String) : String :=
  promptPre ++ topic ++ promptMid1 ++ knowledge ++ promptMid2 ++ skill ++ promptPost

/-- The fixed error placeholder substituted for an AI field that cannot be
read from the decoded response (`"(AI Error)"` in `src/app.py`). -/
def aiErr : PyVal := PyVal.str "(AI Error)"

/-- Stand-in for the Python message `f"AI Response Error: {e}"` built on
JSON decode failure (`e` is the decode exception).  The message is stored
only under the key `"error"`, which none of the 14 field lookups reads, so
its exact text is immaterial; it is modelled as a function of the
undecodable text. -/
def aiResponseError (text : String) : String :=
  "AI Response Error: " ++ text

/-- `parse_ai_response(text, knowledge, skill)` from `src/app.py`: strip a
markdown code fence, decode as JSON (on failure substitute a single-field
error object), then build the 16-key record with `.get(key, "(AI Error)")`
for each of the 14 AI keys and the two pass-through fields verbatim.
`.get` on a non-dict decoded value raises, which the `Except` propagates. -/
def parse_ai_response (text : String) (knowledge skill : PyVal) :
    Except PyErr PyVal := do
  let text := stripFence text
  let data : PyVal :=
    match loads text with
    | some v => v
    | Option.none => PyVal.dict [("error", PyVal.str (aiResponseError text))]
  let rvw ← pyGetD data "rvw" aiErr
  let fcs ← pyGetD data "fcs" aiErr
  let vcb ← pyGetD data "vcb" aiErr
  let mtv ← pyGetD data "mtv" aiErr
  let apk ← pyGetD data "apk" aiErr
  let activities ← pyGetD data "activities" aiErr
  let boc ← pyGetD data "boc" aiErr
  let vals ← pyGetD data "values" aiErr
  let social ← pyGetD data "social" aiErr
  let discipline ← pyGetD data "discipline" aiErr
  let biblical ← pyGetD data "biblical" aiErr
  let eva ← pyGetD data "eva" aiErr
  let smr_act ← pyGetD data "smr_act" aiErr
  let pua ← pyGetD data "pua" aiErr
  pure (PyVal.dict
    [("rvw", rvw), ("fcs", fcs), ("vcb", vcb), ("mtv", mtv), ("apk", apk),
     ("knowledge", knowledge), ("skill", skill), ("activities", activities),
     ("boc", boc), ("values", vals), ("social", social),
     ("discipline", discipline), ("biblical", biblical), ("eva", eva),
     ("smr_act", smr_act), ("pua", pua)])

/-- `create_empty_content(knowledge, skill)` from `src/app.py`: the blank
16-part record — all 14 AI fields the empty string, the two pass-through
fields as given. -/
def create_empty_content (knowledge skill : PyVal) : PyVal :=
  PyVal.dict
    [("rvw", PyVal.str ""), ("fcs", PyVal.str ""), ("vcb", PyVal.str ""),
     ("mtv", PyVal.str ""), ("apk", PyVal.str ""),
     ("knowledge", knowledge), ("skill", skill),
     ("activities", PyVal.str ""), ("boc", PyVal.str ""),
     ("values", PyVal.str ""), ("social", PyVal.str ""),
     ("discipline", PyVal.str ""), ("biblical", PyVal.str ""),
     ("eva", PyVal.str ""), ("smr_act", PyVal.str ""),
     ("pua", PyVal.str "")]

/-- One iteration of the loop body of `generate_content` in `src/app.py`:
read the three fields of the day entry (`day.get(...)`, outside the inner
`try`, so a non-dict entry raises), blank-check, otherwise build the prompt,
call the service and parse — any exception in that inner block degrades to
the blank record.  Returns the record together with the list of prompts
sent to the external service for this entry. -/
def processDay (genFn : String → Except PyErr String) (day : PyVal) :
    Except PyErr (PyVal × List String) := do
  let topic ← pyGet day "topic"
  let knowledge ← pyGet day "knowledge"
  let skill ← pyGet day "skill"
  if !(pyTruthy topic) || !(pyTruthy knowledge) || !(pyTruthy skill) then
    pure (create_empty_content knowledge skill, [])
  else
    let full_prompt := create_lesson_prompt (pyStr topic) (pyStr knowledge) (pyStr skill)
    match (do
        let t ← genFn full_prompt
        parse_ai_response t knowledge skill : Except PyErr PyVal) with
    | Except.ok r => pure (r, [full_prompt])
    | Except.error _ => pure (create_empty_content knowledge skill, [full_prompt])

/-- The `for day in days_data` loop of `generate_content`: process the
entries in order, accumulating records and the prompts sent; an exception
escaping an iteration (only possible from the `day.get` calls) aborts the
whole loop. -/
def generate_days (genFn : String → Except PyErr String) :
    List PyVal → Except PyErr (List PyVal × List String)
  | [] => Except.ok ([], [])
  | day :: rest => do
      let (r, calls) ← processDay genFn day
      let (rs, calls') ← generate_days genFn rest
      pure (r :: rs, calls ++ calls')

/-- A Flask view result: a JSON body with HTTP 200, or one with HTTP 500. -/
inductive HttpResponse where
  | ok : PyVal → HttpResponse
  | serverError : PyVal → HttpResponse

/-- The `/generate-content` route handler `generate_content` from
`src/app.py`, over an already-decoded request payload: read `days`, iterate
the day entries, and answer `{"results": [...]}` with HTTP 200; any
exception escaping that block is answered as `{"error": str(e)}` with
HTTP 500. -/
def generate_content (genFn : String → Except PyErr String) (payload : PyVal) :
    HttpResponse :=
  match (do
      let days_data ← pyGet payload "days"
      let days ← pyIter days_data
      let (results, _) ← generate_days genFn days
      pure results : Except PyErr (List PyVal)) with
  | Except.ok results => HttpResponse.ok (PyVal.dict [("results", PyVal.list results)])
  | Except.error e => HttpResponse.serverError (PyVal.dict [("error", PyVal.str e.msg)])

/-- Whether a value is a Python dict. -/
def isDict : PyVal → Bool
  | PyVal.dict _ => true
  | _ => false

/-- The value `day.get(k)` yields on a day entry that is a dict (`None`
when the key is absent). -/
def dayGet (day : PyVal) (k : String) : PyVal :=
  match day with
  | PyVal.dict kvs => (dictGet kvs k).getD PyVal.none
  | _ => PyVal.none

/-- The prompt the orchestrator builds for a (non-blank) day entry. -/
def promptOfDay (day : PyVal) : String :=
  create_lesson_prompt (pyStr (dayGet day "topic")) (pyStr (dayGet day "knowledge"))
    (pyStr (dayGet day "skill"))

/-- The record the orchestrator appends for a day entry (meaningful when
the entry is a dict, in which case `processDay` cannot fail). -/
def dayRecord (genFn : String → Except PyErr String) (day : PyVal) : PyVal :=
  match processDay genFn day with
  | Except.ok (r, _) => r
  | Except.error _ => PyVal.none

/-- The prompts sent to the external service for a day entry (meaningful
when the entry is a dict, in which case `processDay` cannot fail). -/
def dayCalls (genFn : String → Except PyErr String) (day : PyVal) : List String :=
  match processDay genFn day with
  | Except.ok (_, c) => c
  | Except.error _ => []

/-- The 16 keys of a LessonRecord, in the order `parse_ai_response` and
`create_empty_content` emit them. -/
def lessonKeys : List String :=
  ["rvw", "fcs", "vcb", "mtv", "apk", "knowledge", "skill", "activities",
   "boc", "values", "social", "discipline", "biblical", "eva", "smr_act", "pua"]

/-- `needle` occurs verbatim (contiguously) inside `hay`. -/
def containsVerbatim (hay needle : String) : Prop :=
  ∃ a b, hay = a ++ needle ++ b

/-- Whether an `Except` computation raised. -/
def exceptFailed {α : Type} : Except PyErr α → Bool
  | Except.error _ => true
  | Except.ok _ => false

/-- Whether a view result is the HTTP 500 branch. -/
def isServerError : HttpResponse → Bool
  | HttpResponse.serverError _ => true
  | HttpResponse.ok _ => false

/-- The list of day entries `generate_content` ends up iterating, when both
the `days` lookup and the iteration succeed. -/
def enumeratedDays (payload : PyVal) : Option (List PyVal) :=
  match pyGet payload "days" with
  | Except.error _ => Option.none
  | Except.ok v =>
    match pyIter v with
    | Except.error _ => Option.none
    | Except.ok ds => some ds

/-- The request payload is well formed at the batch level: its day entries
can be enumerated and every enumerated entry is a dict. -/
def daysWellFormed (payload : PyVal) : Bool :=
  match enumeratedDays payload with
  | some ds => ds.all isDict
  | Option.none => false

/-- The key is absent from the entry, or present with the empty string. -/
def absentOrEmpty (kvs : List (String × PyVal)) (k : String) : Prop :=
  dictGet kvs k = Option.none ∨ dictGet kvs k = some (PyVal.str "")

/-- A generative-service stand-in that always fails (an unreachable
service), used to instantiate `genFn` in closed statements. -/
def noGen : String → Except PyErr String :=
  fun _ => Except.error ⟨"RuntimeError", "service unreachable"⟩

@[simp]
theorem pyErrBind_ok {α β : Type} (a : α) (f : α → Except PyErr β) :
    (Except.ok a >>= f : Except PyErr β) = f a := rfl

@[simp]
theorem pyErrBind_error {α β : Type} (e : PyErr) (f : α → Except PyErr β) :
    (Except.error e >>= f : Except PyErr β) = Except.error e := rfl

@[simp]
theorem pyGet_dict (kvs : List (String × PyVal)) (k : String) :
    pyGet (PyVal.dict kvs) k = Except.ok (dayGet (PyVal.dict kvs) k) := rfl

@[simp]
theorem pyGetD_dict (kvs : List (String × PyVal)) (k : String) (dflt : PyVal) :
    pyGetD (PyVal.dict kvs) k dflt = Except.ok ((dictGet kvs k).getD dflt) := rfl

/-- Unfolding of `parse_ai_response` when JSON decoding fails: the decoded
object is the single-field error object, so every AI-field lookup defaults
to the placeholder. -/
theorem parse_eq_of_decode_none (text : String) (knowledge skill : PyVal)
    (h : loads (stripFence text) = Option.none) :
    parse_ai_response text knowledge skill = Except.ok (PyVal.dict
      [("rvw", aiErr), ("fcs", aiErr), ("vcb", aiErr), ("mtv", aiErr),
       ("apk", aiErr), ("knowledge", knowledge), ("skill", skill),
       ("activities", aiErr), ("boc", aiErr), ("values", aiErr),
       ("social", aiErr), ("discipline", aiErr), ("biblical", aiErr),
       ("eva", aiErr), ("smr_act", aiErr), ("pua", aiErr)]) := by
  simp only [parse_ai_response, h]
  rfl

/-- Unfolding of `parse_ai_response` when the text decodes to a JSON
object: each of the 14 AI fields is the object's value for that key if the
key is present (of any type), and the placeholder otherwise. -/
theorem parse_eq_of_decode_dict (text : String) (knowledge skill : PyVal)
    (kvs : List (String × PyVal))
    (h : loads (stripFence text) = some (PyVal.dict kvs)) :
    parse_ai_response text knowledge skill = Except.ok (PyVal.dict
      [("rvw", (dictGet kvs "rvw").getD aiErr),
       ("fcs", (dictGet kvs "fcs").getD aiErr),
       ("vcb", (dictGet kvs "vcb").getD aiErr),
       ("mtv", (dictGet kvs "mtv").getD aiErr),
       ("apk", (dictGet kvs "apk").getD aiErr),
       ("knowledge", knowledge), ("skill", skill),
       ("activities", (dictGet kvs "activities").getD aiErr),
       ("boc", (dictGet kvs "boc").getD aiErr),
       ("values", (dictGet kvs "values").getD aiErr),
       ("social", (dictGet kvs "social").getD aiErr),
       ("discipline", (dictGet kvs "discipline").getD aiErr),
       ("biblical", (dictGet kvs "biblical").getD aiErr),
       ("eva", (dictGet kvs "eva").getD aiErr),
       ("smr_act", (dictGet kvs "smr_act").getD aiErr),
       ("pua", (dictGet kvs "pua").getD aiErr)]) := by
  simp only [parse_ai_response, h, pyGetD_dict, pyErrBind_ok]
  rfl

/-- C9: the prompt builder is deterministic — its output is the fixed
template text with the three inputs interpolated — and it embeds topic,
knowledge and skill verbatim at their designated positions. -/
theorem C9_prompt_builder_deterministic_verbatim (t k s : String) :
    create_lesson_prompt t k s =
      promptPre ++ t ++ promptMid1 ++ k ++ promptMid2 ++ s ++ promptPost ∧
    containsVerbatim (create_lesson_prompt t k s) t ∧
    containsVerbatim (create_lesson_prompt t k s) k ∧
    containsVerbatim (create_lesson_prompt t k s) s := by
  refine ⟨rfl,
    ⟨promptPre, promptMid1 ++ k ++ promptMid2 ++ s ++ promptPost, ?_⟩,
    ⟨promptPre ++ t ++ promptMid1, promptMid2 ++ s ++ promptPost, ?_⟩,
    ⟨promptPre ++ t ++ promptMid1 ++ k ++ promptMid2, promptPost, ?_⟩⟩ <;>
  simp [create_lesson_prompt, String.append_assoc]

/-- C2 as stated is false: the raw text `"5"` is valid JSON, so decoding
succeeds with the integer 5, and the first `.get` call on it raises
`AttributeError` — the parser does raise on this input instead of
producing a record. -/
theorem C2_counterexample :
    parse_ai_response "5" (PyVal.str "") (PyVal.str "") =
      Except.error ⟨"AttributeError",
        "\x27int\x27 object has no attribute \x27get\x27"⟩ := by
  rfl

/-- C2 amended: for every raw text whose decoding does not produce a
non-object JSON value (i.e. decoding fails, or yields an object), the
parser returns normally with a record carrying exactly the 16 keys in
order; raw text decoding to a JSON number, string, array, boolean or null
instead raises `AttributeError`. -/
theorem C2_parse_total_sixteen_keys (text : String) (knowledge skill : PyVal)
    (h : (loads (stripFence text)).all isDict = true) :
    ∃ kvs, parse_ai_response text knowledge skill = Except.ok (PyVal.dict kvs) ∧
      kvs.map Prod.fst = lessonKeys := by
  cases hL : loads (stripFence text) with
  | none => exact ⟨_, parse_eq_of_decode_none text knowledge skill hL, rfl⟩
  | some v =>
    cases v with
    | dict kvs => exact ⟨_, parse_eq_of_decode_dict text knowledge skill kvs hL, rfl⟩
    | none => rw [hL] at h; simp [Option.all, isDict] at h
    | bool b => rw [hL] at h; simp [Option.all, isDict] at h
    | num m e => rw [hL] at h; simp [Option.all, isDict] at h
    | str s' => rw [hL] at h; simp [Option.all, isDict] at h
    | list l => rw [hL] at h; simp [Option.all, isDict] at h

/-- C2 witness: on the undecodable text `"not json at all"` the hypothesis
holds and the parser returns a 16-key record. -/
theorem C2_parse_total_sixteen_keys_witness :
    (loads (stripFence "not json at all")).all isDict = true ∧
    ∃ kvs, parse_ai_response "not json at all" (PyVal.str "K") (PyVal.str "S") =
      Except.ok (PyVal.dict kvs) ∧ kvs.map Prod.fst = lessonKeys :=
  ⟨rfl, C2_parse_total_sixteen_keys "not json at all" (PyVal.str "K") (PyVal.str "S") rfl⟩

/-- C3 as stated is false: for the raw text consisting of the JSON object
assigning the number 5 to `rvw`, the key is present with a non-string
value, yet the parser uses that value as-is instead of substituting the
placeholder — `.get(key, default)` performs no type check. -/
theorem C3_counterexample :
    parse_ai_response "\x7b\"rvw\": 5\x7d" (PyVal.str "K") (PyVal.str "S") =
      Except.ok (PyVal.dict
        [("rvw", PyVal.num 5 0), ("fcs", aiErr), ("vcb", aiErr),
         ("mtv", aiErr), ("apk", aiErr), ("knowledge", PyVal.str "K"),
         ("skill", PyVal.str "S"), ("activities", aiErr), ("boc", aiErr),
         ("values", aiErr), ("social", aiErr), ("discipline", aiErr),
         ("biblical", aiErr), ("eva", aiErr), ("smr_act", aiErr),
         ("pua", aiErr)]) ∧
    PyVal.num 5 0 ≠ aiErr :=
  ⟨rfl, fun h => PyVal.noConfusion h⟩

/-- C3 amended: for each of the 14 AI field keys, the parser uses the value
from the decoded JSON object exactly when the key is present — regardless
of the value's type — and substitutes the fixed error placeholder only when
the key is absent; a missing key never raises. -/
theorem C3_field_defaulting (text : String) (knowledge skill : PyVal)
    (kvs : List (String × PyVal))
    (h : loads (stripFence text) = some (PyVal.dict kvs)) :
    parse_ai_response text knowledge skill = Except.ok (PyVal.dict
      [("rvw", (dictGet kvs "rvw").getD aiErr),
       ("fcs", (dictGet kvs "fcs").getD aiErr),
       ("vcb", (dictGet kvs "vcb").getD aiErr),
       ("mtv", (dictGet kvs "mtv").getD aiErr),
       ("apk", (dictGet kvs "apk").getD aiErr),
       ("knowledge", knowledge), ("skill", skill),
       ("activities", (dictGet kvs "activities").getD aiErr),
       ("boc", (dictGet kvs "boc").getD aiErr),
       ("values", (dictGet kvs "values").getD aiErr),
       ("social", (dictGet kvs "social").getD aiErr),
       ("discipline", (dictGet kvs "discipline").getD aiErr),
       ("biblical", (dictGet kvs "biblical").getD aiErr),
       ("eva", (dictGet kvs "eva").getD aiErr),
       ("smr_act", (dictGet kvs "smr_act").getD aiErr),
       ("pua", (dictGet kvs "pua").getD aiErr)]) :=
  parse_eq_of_decode_dict text knowledge skill kvs h

/-- C3 witness: on the object assigning `true` to `fcs`, the present key is
used verbatim and the 13 absent keys default to the placeholder. -/
theorem C3_field_defaulting_witness :
    loads (stripFence "\x7b\"fcs\": true\x7d") =
      some (PyVal.dict [("fcs", PyVal.bool true)]) ∧
    parse_ai_response "\x7b\"fcs\": true\x7d" (PyVal.str "K") (PyVal.str "S") =
      Except.ok (PyVal.dict
        [("rvw", (dictGet [("fcs", PyVal.bool true)] "rvw").getD aiErr),
         ("fcs", (dictGet [("fcs", PyVal.bool true)] "fcs").getD aiErr),
         ("vcb", (dictGet [("fcs", PyVal.bool true)] "vcb").getD aiErr),
         ("mtv", (dictGet [("fcs", PyVal.bool true)] "mtv").getD aiErr),
         ("apk", (dictGet [("fcs", PyVal.bool true)] "apk").getD aiErr),
         ("knowledge", PyVal.str "K"), ("skill", PyVal.str "S"),
         ("activities", (dictGet [("fcs", PyVal.bool true)] "activities").getD aiErr),
         ("boc", (dictGet [("fcs", PyVal.bool true)] "boc").getD aiErr),
         ("values", (dictGet [("fcs", PyVal.bool true)] "values").getD aiErr),
         ("social", (dictGet [("fcs", PyVal.bool true)] "social").getD aiErr),
         ("discipline", (dictGet [("fcs", PyVal.bool true)] "discipline").getD aiErr),
         ("biblical", (dictGet [("fcs", PyVal.bool true)] "biblical").getD aiErr),
         ("eva", (dictGet [("fcs", PyVal.bool true)] "eva").getD aiErr),
         ("smr_act", (dictGet [("fcs", PyVal.bool true)] "smr_act").getD aiErr),
         ("pua", (dictGet [("fcs", PyVal.bool true)] "pua").getD aiErr)]) :=
  ⟨rfl, C3_field_defaulting "\x7b\"fcs\": true\x7d" (PyVal.str "K") (PyVal.str "S")
    [("fcs", PyVal.bool true)] rfl⟩

/-- C6: for every raw text that fails to decode as JSON, the record has all
14 AI fields equal to the fixed placeholder `"(AI Error)"`, with the two
pass-through fields the given inputs unchanged; in particular the decode
error message (stored only under the unread `"error"` key) appears in none
of the 16 output fields, whose values are fixed by this equation
independently of that message. -/
theorem C6_decode_failure_all_placeholder (text : String) (knowledge skill : PyVal)
    (h : loads (stripFence text) = Option.none) :
    parse_ai_response text knowledge skill = Except.ok (PyVal.dict
      [("rvw", aiErr), ("fcs", aiErr), ("vcb", aiErr), ("mtv", aiErr),
       ("apk", aiErr), ("knowledge", knowledge), ("skill", skill),
       ("activities", aiErr), ("boc", aiErr), ("values", aiErr),
       ("social", aiErr), ("discipline", aiErr), ("biblical", aiErr),
       ("eva", aiErr), ("smr_act", aiErr), ("pua", aiErr)]) :=
  parse_eq_of_decode_none text knowledge skill h

/-- C6 witness: the undecodable raw text `"not json at all"` yields the
all-placeholder record. -/
theorem C6_decode_failure_all_placeholder_witness :
    loads (stripFence "not json at all") = Option.none ∧
    parse_ai_response "not json at all" (PyVal.str "K") (PyVal.str "S") =
      Except.ok (PyVal.dict
        [("rvw", aiErr), ("fcs", aiErr), ("vcb", aiErr), ("mtv", aiErr),
         ("apk", aiErr), ("knowledge", PyVal.str "K"), ("skill", PyVal.str "S"),
         ("activities", aiErr), ("boc", aiErr), ("values", aiErr),
         ("social", aiErr), ("discipline", aiErr), ("biblical", aiErr),
         ("eva", aiErr), ("smr_act", aiErr), ("pua", aiErr)]) :=
  ⟨rfl, C6_decode_failure_all_placeholder "not json at all" (PyVal.str "K") (PyVal.str "S") rfl⟩

/-- C7: the leading markdown fence opener and the trailing fence are
stripped before JSON decoding — concretely, the fenced text strips to the
bare JSON object — and parsing the fenced raw text yields `rvw = "Q?"`
with the other 13 AI fields equal to the fixed error placeholder. -/
theorem C7_code_fence_stripped (knowledge skill : PyVal) :
    stripFence "```json\n\x7b\"rvw\":\"Q?\"\x7d\n```" = "\x7b\"rvw\":\"Q?\"\x7d\n" ∧
    parse_ai_response "```json\n\x7b\"rvw\":\"Q?\"\x7d\n```" knowledge skill =
      Except.ok (PyVal.dict
        [("rvw", PyVal.str "Q?"), ("fcs", aiErr), ("vcb", aiErr),
         ("mtv", aiErr), ("apk", aiErr), ("knowledge", knowledge),
         ("skill", skill), ("activities", aiErr), ("boc", aiErr),
         ("values", aiErr), ("social", aiErr), ("discipline", aiErr),
         ("biblical", aiErr), ("eva", aiErr), ("smr_act", aiErr),
         ("pua", aiErr)]) :=
  ⟨rfl, rfl⟩

/-- A day entry that is a dict is always processed without raising: the
blank branch and the guarded generate branch both return normally. -/
theorem processDay_dict_exists (genFn : String → Except PyErr String)
    (kvs : List (String × PyVal)) :
    ∃ r c, processDay genFn (PyVal.dict kvs) = Except.ok (r, c) := by
  simp only [processDay, pyGet_dict, pyErrBind_ok]
  split
  · exact ⟨_, _, rfl⟩
  · split
    · exact ⟨_, _, rfl⟩
    · exact ⟨_, _, rfl⟩

/-- On a dict day entry, `processDay` returns exactly the pair of its
record and call-list projections. -/
theorem processDay_dict_eq (genFn : String → Except PyErr String)
    (kvs : List (String × PyVal)) :
    processDay genFn (PyVal.dict kvs) =
      Except.ok (dayRecord genFn (PyVal.dict kvs), dayCalls genFn (PyVal.dict kvs)) := by
  obtain ⟨r, c, h⟩ := processDay_dict_exists genFn kvs
  simp [dayRecord, dayCalls, h]

/-- C4: on a non-blank day entry, if the service call followed by response
parsing raises any exception, the entry degrades to the blank record (with
the pass-throughs set and the one attempted prompt recorded), and the batch
continues: the results and calls for the remaining entries are exactly
those of processing the rest, with the blank record and the attempted
prompt prepended. -/
theorem C4_entry_failure_degrades_to_blank (genFn : String → Except PyErr String)
    (kvs : List (String × PyVal)) (rest : List PyVal)
    (ht : pyTruthy (dayGet (PyVal.dict kvs) "topic") = true)
    (hk : pyTruthy (dayGet (PyVal.dict kvs) "knowledge") = true)
    (hs : pyTruthy (dayGet (PyVal.dict kvs) "skill") = true)
    (hfail : exceptFailed (genFn (promptOfDay (PyVal.dict kvs)) >>= fun t =>
        parse_ai_response t (dayGet (PyVal.dict kvs) "knowledge")
          (dayGet (PyVal.dict kvs) "skill")) = true) :
    processDay genFn (PyVal.dict kvs) =
      Except.ok (create_empty_content (dayGet (PyVal.dict kvs) "knowledge")
          (dayGet (PyVal.dict kvs) "skill"), [promptOfDay (PyVal.dict kvs)]) ∧
    generate_days genFn (PyVal.dict kvs :: rest) =
      Except.map (fun p =>
          (create_empty_content (dayGet (PyVal.dict kvs) "knowledge")
              (dayGet (PyVal.dict kvs) "skill") :: p.1,
           promptOfDay (PyVal.dict kvs) :: p.2))
        (generate_days genFn rest) := by
  have h1 : processDay genFn (PyVal.dict kvs) =
      Except.ok (create_empty_content (dayGet (PyVal.dict kvs) "knowledge")
          (dayGet (PyVal.dict kvs) "skill"), [promptOfDay (PyVal.dict kvs)]) := by
    simp only [processDay, pyGet_dict, pyErrBind_ok, ht, hk, hs,
      Bool.not_true, Bool.false_or, Bool.or_self, if_false]
    cases hM : (genFn (promptOfDay (PyVal.dict kvs)) >>= fun t =>
        parse_ai_response t (dayGet (PyVal.dict kvs) "knowledge")
          (dayGet (PyVal.dict kvs) "skill")) with
    | ok v =>
      rw [hM] at hfail
      simp [exceptFailed] at hfail
    | error e =>
      rw [show (do
          let t ← genFn (create_lesson_prompt (pyStr (dayGet (PyVal.dict kvs) "topic"))
            (pyStr (dayGet (PyVal.dict kvs) "knowledge")) (pyStr (dayGet (PyVal.dict kvs) "skill")))
          parse_ai_response t (dayGet (PyVal.dict kvs) "knowledge")
            (dayGet (PyVal.dict kvs) "skill") : Except PyErr PyVal) =
        Except.error e from hM]
      rfl
  refine ⟨h1, ?_⟩
  simp only [generate_days, h1, pyErrBind_ok]
  cases hg : generate_days genFn rest with
  | ok p => cases p with | mk a b => rfl
  | error e => rfl

/-- C4 witness: a fully-filled day entry against an unreachable service
degrades to the blank record with the one attempted prompt recorded. -/
theorem C4_entry_failure_degrades_to_blank_witness :
    exceptFailed (noGen (promptOfDay (PyVal.dict
        [("topic", PyVal.str "T"), ("knowledge", PyVal.str "K"),
         ("skill", PyVal.str "S")])) >>= fun t =>
      parse_ai_response t (PyVal.str "K") (PyVal.str "S")) = true ∧
    processDay noGen (PyVal.dict
        [("topic", PyVal.str "T"), ("knowledge", PyVal.str "K"),
         ("skill", PyVal.str "S")]) =
      Except.ok (create_empty_content (PyVal.str "K") (PyVal.str "S"),
        [promptOfDay (PyVal.dict
          [("topic", PyVal.str "T"), ("knowledge", PyVal.str "K"),
           ("skill", PyVal.str "S")])]) :=
  ⟨rfl, (C4_entry_failure_degrades_to_blank noGen
    [("topic", PyVal.str "T"), ("knowledge", PyVal.str "K"),
     ("skill", PyVal.str "S")] [] rfl rfl rfl rfl).1⟩

/-- C5: a day entry whose topic, knowledge or skill is absent or the empty
string yields the blank record — all 14 AI fields the empty string, the
pass-throughs as read from the entry — and the call list is empty: no
external call is made for that entry. -/
theorem C5_blank_entry_no_external_call (genFn : String → Except PyErr String)
    (kvs : List (String × PyVal))
    (h : absentOrEmpty kvs "topic" ∨ absentOrEmpty kvs "knowledge" ∨
      absentOrEmpty kvs "skill") :
    processDay genFn (PyVal.dict kvs) =
      Except.ok (PyVal.dict
        [("rvw", PyVal.str ""), ("fcs", PyVal.str ""), ("vcb", PyVal.str ""),
         ("mtv", PyVal.str ""), ("apk", PyVal.str ""),
         ("knowledge", dayGet (PyVal.dict kvs) "knowledge"),
         ("skill", dayGet (PyVal.dict kvs) "skill"),
         ("activities", PyVal.str ""), ("boc", PyVal.str ""),
         ("values", PyVal.str ""), ("social", PyVal.str ""),
         ("discipline", PyVal.str ""), ("biblical", PyVal.str ""),
         ("eva", PyVal.str ""), ("smr_act", PyVal.str ""),
         ("pua", PyVal.str "")], []) := by
  have hc : (!(pyTruthy (dayGet (PyVal.dict kvs) "topic")) ||
      !(pyTruthy (dayGet (PyVal.dict kvs) "knowledge")) ||
      !(pyTruthy (dayGet (PyVal.dict kvs) "skill"))) = true := by
    rcases h with h | h | h <;> rcases h with h | h <;>
      simp [dayGet, h, pyTruthy]
  simp only [processDay, pyGet_dict, pyErrBind_ok, hc]
  rfl

/-- C5 witness: a day with topic and knowledge present but an empty skill
yields the blank record and no external call. -/
theorem C5_blank_entry_no_external_call_witness :
    absentOrEmpty [("topic", PyVal.str "T"), ("knowledge", PyVal.str "K"),
      ("skill", PyVal.str "")] "skill" ∧
    processDay noGen (PyVal.dict
        [("topic", PyVal.str "T"), ("knowledge", PyVal.str "K"),
         ("skill", PyVal.str "")]) =
      Except.ok (PyVal.dict
        [("rvw", PyVal.str ""), ("fcs", PyVal.str ""), ("vcb", PyVal.str ""),
         ("mtv", PyVal.str ""), ("apk", PyVal.str ""),
         ("knowledge", PyVal.str "K"), ("skill", PyVal.str ""),
         ("activities", PyVal.str ""), ("boc", PyVal.str ""),
         ("values", PyVal.str ""), ("social", PyVal.str ""),
         ("discipline", PyVal.str ""), ("biblical", PyVal.str ""),
         ("eva", PyVal.str ""), ("smr_act", PyVal.str ""),
         ("pua", PyVal.str "")], []) :=
  ⟨Or.inr rfl, C5_blank_entry_no_external_call noGen
    [("topic", PyVal.str "T"), ("knowledge", PyVal.str "K"),
     ("skill", PyVal.str "")] (Or.inr (Or.inr (Or.inr rfl)))⟩

/-- C10: a blank day entry that omits the knowledge (resp. skill) key
entirely yields a blank record whose corresponding pass-through field is
`None` — serialized as JSON null — and not the empty string, so the
pass-through fields of a returned record are not always strings. -/
theorem C10_absent_key_passthrough_is_none (genFn : String → Except PyErr String)
    (kvs kvs' : List (String × PyVal))
    (hk : dictGet kvs "knowledge" = Option.none)
    (hs : dictGet kvs' "skill" = Option.none) :
    processDay genFn (PyVal.dict kvs) =
      Except.ok (PyVal.dict
        [("rvw", PyVal.str ""), ("fcs", PyVal.str ""), ("vcb", PyVal.str ""),
         ("mtv", PyVal.str ""), ("apk", PyVal.str ""),
         ("knowledge", PyVal.none),
         ("skill", dayGet (PyVal.dict kvs) "skill"),
         ("activities", PyVal.str ""), ("boc", PyVal.str ""),
         ("values", PyVal.str ""), ("social", PyVal.str ""),
         ("discipline", PyVal.str ""), ("biblical", PyVal.str ""),
         ("eva", PyVal.str ""), ("smr_act", PyVal.str ""),
         ("pua", PyVal.str "")], []) ∧
    processDay genFn (PyVal.dict kvs') =
      Except.ok (PyVal.dict
        [("rvw", PyVal.str ""), ("fcs", PyVal.str ""), ("vcb", PyVal.str ""),
         ("mtv", PyVal.str ""), ("apk", PyVal.str ""),
         ("knowledge", dayGet (PyVal.dict kvs') "knowledge"),
         ("skill", PyVal.none),
         ("activities", PyVal.str ""), ("boc", PyVal.str ""),
         ("values", PyVal.str ""), ("social", PyVal.str ""),
         ("discipline", PyVal.str ""), ("biblical", PyVal.str ""),
         ("eva", PyVal.str ""), ("smr_act", PyVal.str ""),
         ("pua", PyVal.str "")], []) ∧
    PyVal.none ≠ PyVal.str "" := by
  have hdg : dayGet (PyVal.dict kvs) "knowledge" = PyVal.none := by
    simp [dayGet, hk]
  have hdg' : dayGet (PyVal.dict kvs') "skill" = PyVal.none := by
    simp [dayGet, hs]
  refine ⟨?_, ?_, fun h => PyVal.noConfusion h⟩
  · have hc : (!(pyTruthy (dayGet (PyVal.dict kvs) "topic")) ||
        !(pyTruthy PyVal.none) ||
        !(pyTruthy (dayGet (PyVal.dict kvs) "skill"))) = true := by
      simp [pyTruthy]
    simp only [processDay, pyGet_dict, pyErrBind_ok, hdg, hc]
    rfl
  · have hc : (!(pyTruthy (dayGet (PyVal.dict kvs') "topic")) ||
        !(pyTruthy (dayGet (PyVal.dict kvs') "knowledge")) ||
        !(pyTruthy PyVal.none)) = true := by
      simp [pyTruthy]
    simp only [processDay, pyGet_dict, pyErrBind_ok, hdg', hc]
    rfl

/-- C10 witness: a day omitting the knowledge key and a day omitting the
skill key each yield the blank record with `None` in the omitted
pass-through field. -/
theorem C10_absent_key_passthrough_is_none_witness :
    dictGet [("topic", PyVal.str "T"), ("skill", PyVal.str "S")] "knowledge" =
      Option.none ∧
    processDay noGen (PyVal.dict [("topic", PyVal.str "T"), ("skill", PyVal.str "S")]) =
      Except.ok (PyVal.dict
        [("rvw", PyVal.str ""), ("fcs", PyVal.str ""), ("vcb", PyVal.str ""),
         ("mtv", PyVal.str ""), ("apk", PyVal.str ""),
         ("knowledge", PyVal.none), ("skill", PyVal.str "S"),
         ("activities", PyVal.str ""), ("boc", PyVal.str ""),
         ("values", PyVal.str ""), ("social", PyVal.str ""),
         ("discipline", PyVal.str ""), ("biblical", PyVal.str ""),
         ("eva", PyVal.str ""), ("smr_act", PyVal.str ""),
         ("pua", PyVal.str "")], []) :=
  ⟨rfl, (C10_absent_key_passthrough_is_none noGen
    [("topic", PyVal.str "T"), ("skill", PyVal.str "S")]
    [("topic", PyVal.str "T"), ("knowledge", PyVal.str "K")] rfl rfl).1⟩

/-- On a list of day entries that are all dicts, the loop returns normally
and its records are exactly the per-entry records, in order. -/
theorem generate_days_all_dict (genFn : String → Except PyErr String)
    (days : List PyVal) (h : ∀ d ∈ days, isDict d = true) :
    ∃ calls, generate_days genFn days =
      Except.ok (days.map (dayRecord genFn), calls) := by
  induction days with
  | nil => exact ⟨[], rfl⟩
  | cons d rest ih =>
    obtain ⟨calls, hrest⟩ := ih (fun x hx => h x (List.mem_cons_of_mem d hx))
    have hd : isDict d = true := h d (List.mem_cons_self d rest)
    cases d with
    | dict kvs =>
      refine ⟨dayCalls genFn (PyVal.dict kvs) ++ calls, ?_⟩
      simp only [generate_days, processDay_dict_eq, pyErrBind_ok, hrest]
      rfl
    | none => simp [isDict] at hd
    | bool b => simp [isDict] at hd
    | num m e => simp [isDict] at hd
    | str s => simp [isDict] at hd
    | list l => simp [isDict] at hd

/-- C1: for a payload whose `days` value is a list of day-entry dicts, the
route returns HTTP 200 with a results list of the same length as the days
list, whose entry at index `i` is the record for day `i` (the results list
is the element-wise image of the days list); in particular an empty days
list yields `{"results": []}` with HTTP 200. -/
theorem C1_results_match_days (genFn : String → Except PyErr String)
    (days : List PyVal) (h : ∀ d ∈ days, isDict d = true) :
    generate_content genFn (PyVal.dict [("days", PyVal.list days)]) =
      HttpResponse.ok (PyVal.dict
        [("results", PyVal.list (days.map (dayRecord genFn)))]) ∧
    (days.map (dayRecord genFn)).length = days.length := by
  obtain ⟨calls, hdays⟩ := generate_days_all_dict genFn days h
  refine ⟨?_, List.length_map days (dayRecord genFn)⟩
  have hA : (do
      let days_data ← pyGet (PyVal.dict [("days", PyVal.list days)]) "days"
      let ds ← pyIter days_data
      let (results, _) ← generate_days genFn ds
      pure results : Except PyErr (List PyVal)) =
      Except.ok (days.map (dayRecord genFn)) := by
    rw [show pyGet (PyVal.dict [("days", PyVal.list days)]) "days" =
      Except.ok (PyVal.list days) from rfl]
    rw [pyErrBind_ok]
    rw [show pyIter (PyVal.list days) = Except.ok days from rfl]
    rw [pyErrBind_ok, hdays]
    rfl
  simp only [generate_content, hA]

/-- C1 witness: the empty days list yields `{"results": []}` with
HTTP 200. -/
theorem C1_results_match_days_witness :
    (∀ d ∈ ([] : List PyVal), isDict d = true) ∧
    generate_content noGen (PyVal.dict [("days", PyVal.list [])]) =
      HttpResponse.ok (PyVal.dict [("results", PyVal.list [])]) :=
  ⟨fun d hd => absurd hd (List.not_mem_nil d),
   (C1_results_match_days noGen [] (fun d hd => absurd hd (List.not_mem_nil d))).1⟩

/-- The loop over day entries raises exactly when some entry is not a
dict: a dict entry always processes normally, while a non-dict entry's
`day.get` (outside the inner try) raises and aborts the loop. -/
theorem generate_days_failed_iff (genFn : String → Except PyErr String)
    (days : List PyVal) :
    exceptFailed (generate_days genFn days) = !(days.all isDict) := by
  induction days with
  | nil => rfl
  | cons d rest ih =>
    cases d with
    | dict kvs =>
      simp only [generate_days, processDay_dict_eq, pyErrBind_ok]
      cases hg : generate_days genFn rest with
      | ok p =>
        cases p with
        | mk a b =>
          rw [hg] at ih
          simp only [exceptFailed] at ih
          simp [exceptFailed, isDict, List.all_cons, ← ih]
      | error e =>
        rw [hg] at ih
        simp only [exceptFailed] at ih
        simp [exceptFailed, isDict, List.all_cons, ← ih]
    | none => rfl
    | bool b => rfl
    | num m e => rfl
    | str s => rfl
    | list l => rfl

/-- C8 as stated is false in its exclusivity part: the payload whose days
list is `[5]` has enumerable day entries, yet the request is answered with
HTTP 500 (the non-dict entry's `day.get` raises outside the inner try), so
batch-level non-enumerability is not the only non-200 path. -/
theorem C8_counterexample :
    pyIter (PyVal.list [PyVal.num 5 0]) = Except.ok [PyVal.num 5 0] ∧
    generate_content noGen (PyVal.dict [("days", PyVal.list [PyVal.num 5 0])]) =
      HttpResponse.serverError (PyVal.dict
        [("error", PyVal.str "\x27int\x27 object has no attribute \x27get\x27")]) :=
  ⟨rfl, rfl⟩

/-- C8 amended: every response of the route is either HTTP 200 with a
results list or HTTP 500 with an error field, and the HTTP 500 branch is
taken exactly when the payload is malformed at the batch level — its day
entries cannot be enumerated (no dict payload, missing or non-iterable
`days`), or some enumerated day entry is not a dict. -/
theorem C8_batch_level_failure (genFn : String → Except PyErr String)
    (payload : PyVal) :
    ((∃ results, generate_content genFn payload =
        HttpResponse.ok (PyVal.dict [("results", PyVal.list results)])) ∨
     (∃ msg, generate_content genFn payload =
        HttpResponse.serverError (PyVal.dict [("error", PyVal.str msg)]))) ∧
    isServerError (generate_content genFn payload) = !(daysWellFormed payload) := by
  cases hG : pyGet payload "days" with
  | error e =>
    have h1 : generate_content genFn payload =
        HttpResponse.serverError (PyVal.dict [("error", PyVal.str e.msg)]) := by
      simp [generate_content, hG]
    have h2 : daysWellFormed payload = false := by
      simp [daysWellFormed, enumeratedDays, hG]
    rw [h1, h2]
    exact ⟨Or.inr ⟨e.msg, rfl⟩, rfl⟩
  | ok v =>
    cases hI : pyIter v with
    | error e =>
      have h1 : generate_content genFn payload =
          HttpResponse.serverError (PyVal.dict [("error", PyVal.str e.msg)]) := by
        simp [generate_content, hG, hI]
      have h2 : daysWellFormed payload = false := by
        simp [daysWellFormed, enumeratedDays, hG, hI]
      rw [h1, h2]
      exact ⟨Or.inr ⟨e.msg, rfl⟩, rfl⟩
    | ok ds =>
      have h2 : daysWellFormed payload = ds.all isDict := by
        simp [daysWellFormed, enumeratedDays, hG, hI]
      have hfail := generate_days_failed_iff genFn ds
      cases hD : generate_days genFn ds with
      | error e =>
        have h1 : generate_content genFn payload =
            HttpResponse.serverError (PyVal.dict [("error", PyVal.str e.msg)]) := by
          simp [generate_content, hG, hI, hD]
        rw [hD] at hfail
        simp only [exceptFailed] at hfail
        rw [h1, h2, ← hfail]
        exact ⟨Or.inr ⟨e.msg, rfl⟩, rfl⟩
      | ok p =>
        cases p with
        | mk results calls =>
          have h1 : generate_content genFn payload =
              HttpResponse.ok (PyVal.dict [("results", PyVal.list results)]) := by
            simp [generate_content, hG, hI, hD]
          rw [hD] at hfail
          simp only [exceptFailed] at hfail
          rw [h1, h2, ← hfail]
          exact ⟨Or.inl ⟨results, rfl⟩, rfl⟩
